import Mathlib

/-!
Shallow embedding of the booking-lifecycle and view-filtering logic of the
laboratory equipment management application (`app/main.py`, `app/data.py`),
together with theorems settling the specification claims.

Machine conventions: Python strings are embedded as `String` (lowered to
`List Char` where substring containment is needed), Python `None` as
`Option.none`, Python truthiness of a string as "nonempty", of an integer as
"nonzero", and Python's `int(...)` conversion as a partial function into
`Option Int`.  Handlers that can raise return a `PageResult` with an explicit
error constructor.
-/

namespace Architect

/-- Modelled from the spec: the `User` record of the application's models
module (the module itself is outside the provided sources; field set follows
spec section 3).  Only the fields consulted by the handlers in `app/main.py`
are carried; `role` holds one of the enumerated strings STUDENT/STAFF/ADMIN. -/
structure User where
  id : String
  name : String
  role : String
  department : String
  isLocked : Bool
  password : String
  deriving Repr, DecidableEq

/-- Modelled from the spec: the `Equipment` record (spec section 3); only the
fields consulted by the equipment-listing handler are carried.  `status` holds
one of the enumerated status strings. -/
structure Equipment where
  id : String
  name : String
  code : String
  status : String
  deriving Repr, DecidableEq

/-- Modelled from the spec: the `Booking` record (spec section 3).  The start
time is represented by the calendar year it falls in (`startYear`), since the
handlers consult the start time only through
`datetime.fromisoformat(b["startTime"]).year`. -/
structure Booking where
  id : String
  userId : String
  equipmentId : String
  status : String
  startYear : Int
  deriving Repr, DecidableEq

/-- Modelled from the spec: the `UsageLog` record (spec section 3); the
reference to a booking is optional, and the Python code additionally treats an
empty-string `bookingId` as falsy. -/
structure UsageLog where
  id : String
  bookingId : Option String
  equipmentId : String
  deriving Repr, DecidableEq

/-- Enhanced booking dictionary built by `bookings_page` (`app/main.py`
lines 315-322): the booking's own fields merged with the referenced
equipment's display name and code. -/
structure EnhancedBooking where
  id : String
  userId : String
  status : String
  startYear : Int
  equipmentName : String
  equipmentCode : String
  deriving Repr, DecidableEq

/-- Lowercasing of a Python string for the case-insensitive comparisons of
`equipment_list` (`.lower()`), as a list of characters. -/
def lowerChars (s : String) : List Char :=
  s.toList.map Char.toLower

/-- Prefix test on character lists: `startsWithChars needle hay` holds when
`needle` is an initial segment of `hay`. -/
def startsWithChars : List Char → List Char → Bool
  | [], _ => true
  | _ :: _, [] => false
  | a :: as, b :: bs => a == b && startsWithChars as bs

/-- Python's substring containment `needle in hay` on character lists. -/
def isSubstrOf (needle : List Char) : List Char → Bool
  | [] => needle.isEmpty
  | b :: bs => startsWithChars needle (b :: bs) || isSubstrOf needle bs

/-- Embedding of the `/equipment` handler's filtering (`equipment_list`,
`app/main.py` lines 225-234): a truthy `search` keeps items whose lowered name
or lowered code contains the lowered search string; a `status` other than
`"ALL"` keeps items whose status equals it exactly; both filters preserve the
store's order. -/
def equipment_filter (search status : String) (items : List Equipment) : List Equipment :=
  let items1 :=
    if search = "" then items
    else
      items.filter fun e =>
        isSubstrOf (lowerChars search) (lowerChars e.name) ||
          isSubstrOf (lowerChars search) (lowerChars e.code)
  if status = "ALL" then items1
  else items1.filter fun e => e.status == status

/-- C1: an equipment record appears in the `/equipment` listing result iff
(the search string is empty, or occurs as a case-insensitive substring of the
record's name or of its code) and (the status filter is the sentinel `"ALL"`
or the record's status equals the filter exactly); and the result is a
sublist of the store's list, so store insertion order is preserved. -/
theorem equipment_filter_spec (search status : String) (items : List Equipment)
    (e : Equipment) :
    (e ∈ equipment_filter search status items ↔
      e ∈ items ∧
        (search = "" ∨
          isSubstrOf (lowerChars search) (lowerChars e.name) = true ∨
          isSubstrOf (lowerChars search) (lowerChars e.code) = true) ∧
        (status = "ALL" ∨ e.status = status)) ∧
    (equipment_filter search status items).Sublist items := by
  unfold equipment_filter
  by_cases hs : search = "" <;> by_cases hst : status = "ALL" <;>
    simp [hs, hst, List.mem_filter, List.filter_sublist, and_assoc, and_comm,
      (List.filter_sublist _).trans (List.filter_sublist _)]

/-- Embedding of `DataStore.get_user` (`app/data.py`): the first user whose id
matches exactly, else `none`. -/
def get_user (users : List User) (user_id : String) : Option User :=
  users.find? fun u => u.id == user_id

/-- Embedding of `DataStore.get_equipment` (`app/data.py`): the first
equipment record whose id matches exactly, else `none`. -/
def get_equipment (equipment : List Equipment) (eq_id : String) : Option Equipment :=
  equipment.find? fun e => e.id == eq_id

/-- Embedding of `get_current_user` (`app/main.py` lines 48-52): a missing or
empty (falsy) `user_id` cookie resolves to no user; otherwise the store is
consulted by exact id. -/
def get_current_user (users : List User) (cookie : Option String) : Option User :=
  match cookie with
  | none => none
  | some c => if c = "" then none else get_user users c

/-- Embedding of `require_login` (`app/main.py` lines 59-62); `some path`
models the redirect response, `none` models "guard passed". -/
def require_login (users : List User) (cookie : Option String) : Option String :=
  match get_current_user users cookie with
  | none => some "/login"
  | some _ => none

/-- Embedding of `require_staff` (`app/main.py` lines 65-71). -/
def require_staff (users : List User) (cookie : Option String) : Option String :=
  match get_current_user users cookie with
  | none => some "/login"
  | some u => if u.role ∈ (["ADMIN", "STAFF"] : List String) then none else some "/"

/-- Embedding of `require_admin` (`app/main.py` lines 74-80). -/
def require_admin (users : List User) (cookie : Option String) : Option String :=
  match get_current_user users cookie with
  | none => some "/login"
  | some u => if u.role = "ADMIN" then none else some "/"

/-- Response of `POST /api/login` as observed by the client: HTTP status code,
success flag, identity cookie set by the response (if any), and the
redirect/message payload fields. -/
structure LoginResp where
  status : Nat
  success : Bool
  cookie : Option String
  redirect : Option String
  message : Option String
  deriving Repr, DecidableEq

/-- Embedding of `login_api` (`app/main.py` lines 159-166): look the user up
by the submitted id; on an existing, password-matching, unlocked user return
success with the identity cookie set to the user's id; otherwise return HTTP
401 with no cookie. -/
def login_api (users : List User) (user_id password : String) : LoginResp :=
  match get_user users user_id with
  | some user =>
    if user.password == password && !user.isLocked then
      { status := 200, success := true, cookie := some user.id,
        redirect := some "/", message := none }
    else
      { status := 401, success := false, cookie := none,
        redirect := none, message := some "Sai thông tin đăng nhập" }
  | none =>
    { status := 401, success := false, cookie := none,
      redirect := none, message := some "Sai thông tin đăng nhập" }

/-- C7: login succeeds — 200 response with the identity cookie set to the
submitted user id — iff a user with that id exists, the submitted password
equals the stored credential, and the user is not locked; in every other case
(including a locked user's correct credentials) the response is HTTP 401 with
`success = false` and no cookie set. -/
theorem login_api_spec (users : List User) (uid pw : String) :
    ((∃ u, get_user users uid = some u ∧ u.password = pw ∧ u.isLocked = false) ∧
      login_api users uid pw =
        { status := 200, success := true, cookie := some uid,
          redirect := some "/", message := none }) ∨
    ((¬∃ u, get_user users uid = some u ∧ u.password = pw ∧ u.isLocked = false) ∧
      login_api users uid pw =
        { status := 401, success := false, cookie := none,
          redirect := none, message := some "Sai thông tin đăng nhập" }) := by
  unfold login_api
  cases hfind : get_user users uid with
  | none =>
    refine Or.inr ⟨?_, rfl⟩
    rintro ⟨u, hu, -⟩
    exact Option.noConfusion hu
  | some u =>
    have hid : u.id = uid := by
      have h := List.find?_some (show users.find? (fun x => x.id == uid) = some u from hfind)
      simpa using h
    by_cases hpw : u.password = pw
    · by_cases hlock : u.isLocked = false
      · exact Or.inl ⟨⟨u, rfl, hpw, hlock⟩, by simp [hpw, hlock, hid]⟩
      · refine Or.inr ⟨?_, ?_⟩
        · rintro ⟨v, hv, -, hvl⟩
          cases hv
          exact hlock hvl
        · simp [hpw, eq_true_of_ne_false hlock]
    · refine Or.inr ⟨?_, ?_⟩
      · rintro ⟨v, hv, hvp, -⟩
        cases hv
        exact hpw hvp
      · simp [hpw]

/-- Store transformation flipping the locked flag of the user with the given
id, leaving every other field and every other user unchanged. -/
def set_locked (users : List User) (uid : String) (v : Bool) : List User :=
  users.map fun u => if u.id = uid then { u with isLocked := v } else u

/-- Lookup commutes with the locked-flag rewrite: the found user is the same
record up to its `isLocked` field. -/
theorem get_user_set_locked (users : List User) (uid : String) (v : Bool) (i : String) :
    get_user (set_locked users uid v) i =
      (get_user users i).map fun u =>
        if u.id = uid then { u with isLocked := v } else u := by
  unfold get_user set_locked
  induction users with
  | nil => rfl
  | cons a l ih =>
    rw [List.map_cons, List.find?_cons, List.find?_cons]
    have hfa : (if a.id = uid then { a with isLocked := v } else a).id = a.id := by
      by_cases h : a.id = uid <;> simp [h]
    by_cases hi : a.id = i
    · have h1 : ((if a.id = uid then { a with isLocked := v } else a).id == i) = true := by
        rw [hfa]
        simp [hi]
      have h2 : (a.id == i) = true := by simp [hi]
      rw [h1, h2]
      rfl
    · have h1 : ((if a.id = uid then { a with isLocked := v } else a).id == i) = false := by
        rw [hfa]
        simp [hi]
      have h2 : (a.id == i) = false := by simp [hi]
      rw [h1, h2]
      exact ih

/-- C9: current-user resolution and every guard are invariant under changing
any user's locked flag — two stores identical except for one user's
`isLocked` give the same resolved identity (id and role) and the same
`require_login` / `require_staff` / `require_admin` outcomes for every
cookie; the locked flag is consulted only by `login_api`. -/
theorem guards_ignore_locked (users : List User) (uid : String) (v : Bool)
    (cookie : Option String) :
    ((get_current_user (set_locked users uid v) cookie).map fun u => (u.id, u.role)) =
      ((get_current_user users cookie).map fun u => (u.id, u.role)) ∧
    require_login (set_locked users uid v) cookie = require_login users cookie ∧
    require_staff (set_locked users uid v) cookie = require_staff users cookie ∧
    require_admin (set_locked users uid v) cookie = require_admin users cookie := by
  cases cookie with
  | none => exact ⟨rfl, rfl, rfl, rfl⟩
  | some c =>
    by_cases hc : c = ""
    · simp [get_current_user, require_login, require_staff, require_admin, hc]
    · simp only [get_current_user, require_login, require_staff, require_admin, hc,
        if_neg hc, get_user_set_locked]
      cases get_user users c with
      | none => exact ⟨rfl, rfl, rfl, rfl⟩
      | some u => by_cases h : u.id = uid <;> simp [h]

/-- Embedding of the visibility restriction of `bookings_page` (`app/main.py`
lines 311-313): a user whose role is not ADMIN or STAFF sees only the
bookings whose `userId` equals their own id. -/
def visible_bookings (user : User) (bookings : List Booking) : List Booking :=
  if user.role ∈ (["ADMIN", "STAFF"] : List String) then bookings
  else bookings.filter fun b => b.userId == user.id

/-- C8: before any tab filter, a STAFF or ADMIN user sees the full booking
store unchanged, and any other user sees exactly the bookings whose `userId`
equals their id. -/
theorem visible_bookings_spec (user : User) (bookings : List Booking) :
    ((user.role = "STAFF" ∨ user.role = "ADMIN") →
      visible_bookings user bookings = bookings) ∧
    (¬(user.role = "STAFF" ∨ user.role = "ADMIN") →
      ∀ b, b ∈ visible_bookings user bookings ↔ b ∈ bookings ∧ b.userId = user.id) := by
  unfold visible_bookings
  by_cases h : user.role ∈ (["ADMIN", "STAFF"] : List String) <;>
    simp_all [List.mem_filter]

/-- Set of booking ids referenced by usage logs, as built by `bookings_page`
(`app/main.py` lines 324-325): the comprehension keeps only truthy values, so
a `None` or empty-string `bookingId` contributes nothing. -/
def logged_booking_ids (logs : List UsageLog) : List String :=
  logs.filterMap fun l =>
    match l.bookingId with
    | none => none
    | some s => if s = "" then none else some s

/-- Embedding of the local `filter_by_tab` of `bookings_page` (`app/main.py`
lines 330-344); the `year` argument receives the handler's `selected_year`,
an integer whose Python truthiness is "nonzero". -/
def filter_by_tab (bookings : List EnhancedBooking) (tab : String)
    (logged_ids : List String) (year : Int) : List EnhancedBooking :=
  if tab = "PENDING" then bookings.filter fun b => b.status == "PENDING"
  else if tab = "APPROVED" then bookings.filter fun b => b.status == "APPROVED"
  else if tab = "ACTIVE" then bookings.filter fun b => b.status == "ACTIVE"
  else if tab = "WAITING_LOG" then
    bookings.filter fun b => b.status == "COMPLETED" && !(logged_ids.contains b.id)
  else if tab = "HISTORY" then
    let filtered := bookings.filter fun b =>
      (["COMPLETED", "CANCELLED", "REJECTED"] : List String).contains b.status
    if year ≠ 0 then filtered.filter fun b => b.startYear == year else filtered
  else bookings

/-- Embedding of the `history_years` context entry (`app/main.py` line 355):
the deduplicated start-time years of bookings with a terminal status, sorted
descending, defaulting to `[now.year]` when that set is empty (Python's
`sorted(set, reverse=True) or [datetime.now().year]`). -/
def history_years (enhanced : List EnhancedBooking) (nowYear : Int) : List Int :=
  let ys :=
    ((enhanced.filter fun b =>
          (["COMPLETED", "CANCELLED", "REJECTED"] : List String).contains b.status).map
        fun b => b.startYear).dedup
  let sortedYears := ys.insertionSort (· ≥ ·)
  if sortedYears = [] then [nowYear] else sortedYears

/-- View context assembled by `bookings_page` (`app/main.py` lines 346-361)
from the enhanced booking set, the logged booking ids, the active tab and the
selected year. -/
structure BookingsCtx where
  filtered : List EnhancedBooking
  activeTab : String
  selectedYear : Int
  historyYears : List Int
  pendingCount : Nat
  approvedCount : Nat
  activeCount : Nat
  waitingLogCount : Nat
  historyCount : Nat
  deriving Repr, DecidableEq

/-- Embedding of the context assembly of `bookings_page` (`app/main.py`
lines 346-361): the filtered list uses the active tab, while every count and
the history-year list are computed from the full enhanced set. -/
def bookings_ctx (enhanced : List EnhancedBooking) (logged_ids : List String)
    (activeTab : String) (selectedYear : Int) (nowYear : Int) : BookingsCtx :=
  { filtered := filter_by_tab enhanced activeTab logged_ids selectedYear
    activeTab := activeTab
    selectedYear := selectedYear
    historyYears := history_years enhanced nowYear
    pendingCount := (enhanced.filter fun b => b.status == "PENDING").length
    approvedCount := (enhanced.filter fun b => b.status == "APPROVED").length
    activeCount := (enhanced.filter fun b => b.status == "ACTIVE").length
    waitingLogCount := (enhanced.filter fun b =>
      b.status == "COMPLETED" && !(logged_ids.contains b.id)).length
    historyCount := (enhanced.filter fun b =>
      (["COMPLETED", "CANCELLED", "REJECTED"] : List String).contains b.status).length }

/-- Characters Python's `int(str)` strips from both ends of its argument
(ASCII whitespace). -/
def isPySpace (c : Char) : Bool :=
  c == ' ' || c == '\t' || c == '\n' || c == '\r' ||
    c == Char.ofNat 11 || c == Char.ofNat 12

/-- Continuation of a Python integer-literal digit run: decimal digits with a
single underscore allowed between two digits. -/
def digitsRest : List Char → Bool
  | [] => true
  | '_' :: c :: cs => c.isDigit && digitsRest cs
  | c :: cs => c.isDigit && digitsRest cs

/-- Valid digit run of a Python integer literal: nonempty, starts with a
digit, underscores only between digits. -/
def pyIntDigits : List Char → Bool
  | [] => false
  | c :: cs => c.isDigit && digitsRest cs

/-- Numeric value of a digit run, skipping underscores. -/
def digitsVal (cs : List Char) : Nat :=
  cs.foldl (fun acc c => if c == '_' then acc else acc * 10 + (c.toNat - 48)) 0

/-- Embedding of Python's `int(str)` conversion as applied to the `year`
query parameter (`app/main.py` line 328): optional surrounding whitespace, an
optional sign, then a valid digit run; any other argument raises
`ValueError`, embedded as `none`. -/
def pyInt (s : String) : Option Int :=
  let cs := ((s.toList.dropWhile isPySpace).reverse.dropWhile isPySpace).reverse
  match cs with
  | '+' :: rest => if pyIntDigits rest then some (digitsVal rest : Int) else none
  | '-' :: rest => if pyIntDigits rest then some (-(digitsVal rest : Int)) else none
  | rest => if pyIntDigits rest then some (digitsVal rest : Int) else none

/-- Result of the `/bookings` page handler: a redirect response, an uncaught
exception, or a rendered view over a `BookingsCtx`. -/
inductive PageResult where
  | redirect (path : String)
  | error (msg : String)
  | view (ctx : BookingsCtx)
  deriving Repr, DecidableEq

/-- Projection returning the filtered booking list of a rendered view. -/
def PageResult.filteredBookings : PageResult → Option (List EnhancedBooking)
  | .view ctx => some ctx.filtered
  | _ => none

/-- Enhancement step of `bookings_page` (`app/main.py` lines 315-322): merge
each booking with its equipment's display name and code, defaulting to
`"Unknown"` and `""` when the equipment reference does not resolve. -/
def enhance (equipment : List Equipment) (b : Booking) : EnhancedBooking :=
  match get_equipment equipment b.equipmentId with
  | some e =>
    { id := b.id, userId := b.userId, status := b.status, startYear := b.startYear,
      equipmentName := e.name, equipmentCode := e.code }
  | none =>
    { id := b.id, userId := b.userId, status := b.status, startYear := b.startYear,
      equipmentName := "Unknown", equipmentCode := "" }

/-- Selected year of `bookings_page` (`app/main.py` line 328):
`int(request.query_params.get("year", datetime.now().year))` — the default is
the current year, and an unparseable present parameter raises. -/
def selected_year (yearParam : Option String) (nowYear : Int) : Option Int :=
  match yearParam with
  | none => some nowYear
  | some s => pyInt s

/-- Embedding of the `/bookings` handler (`bookings_page`, `app/main.py`
lines 304-362): redirect when not logged in; restrict visibility by role;
enhance with equipment data; read the tab and year parameters (the year
conversion can raise, for every tab); assemble the view context. -/
def bookings_page (user : Option User) (bookings : List Booking)
    (equipment : List Equipment) (logs : List UsageLog)
    (tabParam yearParam : Option String) (nowYear : Int) : PageResult :=
  match user with
  | none => .redirect "/login"
  | some u =>
    let visible := visible_bookings u bookings
    let enhanced := visible.map (enhance equipment)
    let logged_ids := logged_booking_ids logs
    let activeTab := tabParam.getD "PENDING"
    match selected_year yearParam nowYear with
    | none => .error "ValueError"
    | some y => .view (bookings_ctx enhanced logged_ids activeTab y nowYear)

/-- Concrete sample record used by closed witness theorems. -/
def sampleBooking : EnhancedBooking :=
  { id := "b1", userId := "u3", status := "COMPLETED", startYear := 2020,
    equipmentName := "Kính Hiển Vi Điện Tử Olympus CX23", equipmentCode := "KHV-001" }

/-- Concrete sample user mirroring the seeded student of `app/data.py`. -/
def studentUser : User :=
  { id := "u3", name := "Lê Văn Sinh Viên", role := "STUDENT",
    department := "Lớp KTPM", isLocked := false, password := "123@" }

/-- C5: every tab value other than the five recognized ones leaves the
visible booking set unchanged — the deliberate fallback returns the full
list, not an error or an empty list. -/
theorem filter_by_tab_default (bookings : List EnhancedBooking) (tab : String)
    (logged_ids : List String) (year : Int)
    (h : tab ∉ (["PENDING", "APPROVED", "ACTIVE", "WAITING_LOG", "HISTORY"] : List String)) :
    filter_by_tab bookings tab logged_ids year = bookings := by
  simp only [List.mem_cons, List.not_mem_nil, or_false, not_or] at h
  obtain ⟨h1, h2, h3, h4, h5⟩ := h
  simp [filter_by_tab, h1, h2, h3, h4, h5]

/-- Closed instance of `filter_by_tab_default` at the spec's example tab
value `"FOO"` on a one-element booking list. -/
theorem filter_by_tab_default_witness :
    "FOO" ∉ (["PENDING", "APPROVED", "ACTIVE", "WAITING_LOG", "HISTORY"] : List String) ∧
    filter_by_tab [sampleBooking] "FOO" [] 2026 = [sampleBooking] :=
  ⟨by decide, filter_by_tab_default [sampleBooking] "FOO" [] 2026 (by decide)⟩

/-- Membership in the handler's logged-id set: exactly the non-empty booking
ids carried by some usage log. -/
theorem mem_logged_booking_ids (logs : List UsageLog) (i : String) :
    i ∈ logged_booking_ids logs ↔ i ≠ "" ∧ ∃ l ∈ logs, l.bookingId = some i := by
  unfold logged_booking_ids
  rw [List.mem_filterMap]
  constructor
  · rintro ⟨l, hl, h⟩
    cases hbid : l.bookingId with
    | none => rw [hbid] at h; exact absurd h (by simp)
    | some s =>
      rw [hbid] at h
      by_cases hs : s = ""
      · simp [hs] at h
      · simp only [hs, if_false, reduceIte] at h
        cases h
        exact ⟨hs, l, hl, hbid⟩
  · rintro ⟨hne, l, hl, hbid⟩
    exact ⟨l, hl, by simp [hbid, hne]⟩

/-- Booking with an empty id, used to exhibit the truthiness gap of the
WAITING_LOG filter. -/
def emptyIdBooking : EnhancedBooking :=
  { id := "", userId := "u3", status := "COMPLETED", startYear := 2024,
    equipmentName := "Unknown", equipmentCode := "" }

/-- Usage log whose `bookingId` is the empty string. -/
def emptyRefLog : UsageLog :=
  { id := "log1", bookingId := some "", equipmentId := "e1" }

/-- C2 counterexample: a usage log whose `bookingId` equals the empty-string
id of a COMPLETED booking references that booking, yet the booking still
appears in the WAITING_LOG tab, because the handler's set comprehension
drops falsy (empty-string) `bookingId` values. -/
theorem waiting_log_truthiness_counterexample :
    emptyRefLog.bookingId = some emptyIdBooking.id ∧
    emptyIdBooking.status = "COMPLETED" ∧
    filter_by_tab [emptyIdBooking] "WAITING_LOG" (logged_booking_ids [emptyRefLog]) 0 =
      [emptyIdBooking] := by decide

/-- C2 amended: the WAITING_LOG tab result is exactly the set of COMPLETED
bookings minus those whose id is non-empty and referenced by some usage
log's `bookingId`. -/
theorem waiting_log_spec (bookings : List EnhancedBooking) (logs : List UsageLog)
    (year : Int) (b : EnhancedBooking) :
    b ∈ filter_by_tab bookings "WAITING_LOG" (logged_booking_ids logs) year ↔
      b ∈ bookings ∧ b.status = "COMPLETED" ∧
        ¬(b.id ≠ "" ∧ ∃ l ∈ logs, l.bookingId = some b.id) := by
  have hred : filter_by_tab bookings "WAITING_LOG" (logged_booking_ids logs) year =
      bookings.filter fun x =>
        x.status == "COMPLETED" && !((logged_booking_ids logs).contains x.id) := rfl
  rw [hred, List.mem_filter, Bool.and_eq_true, beq_iff_eq, Bool.not_eq_true',
    ← Bool.not_eq_true, List.contains, List.elem_iff, mem_logged_booking_ids]

/-- C3 counterexample: with no year parameter, the handler substitutes the
current year before calling the tab filter, so a COMPLETED booking that
started in 2020 is absent from the HISTORY tab of a request served in 2026
even though no year restriction was requested. -/
theorem history_default_year_counterexample :
    (Booking.mk "b1" "u3" "e1" "COMPLETED" 2020).status = "COMPLETED" ∧
    (bookings_page (some studentUser) [Booking.mk "b1" "u3" "e1" "COMPLETED" 2020]
        [] [] (some "HISTORY") none 2026).filteredBookings = some [] := by decide

/-- C3 amended: the HISTORY tab returns exactly the visible bookings with
status COMPLETED, CANCELLED or REJECTED, restricted to the selected year
whenever that year is nonzero — where the selected year is the parsed `year`
parameter when one is given and the current calendar year otherwise, so the
no-year request is restricted to the current year. -/
theorem history_tab_spec (bookings : List EnhancedBooking) (logged_ids : List String)
    (yearParam : Option String) (nowYear y : Int) (b : EnhancedBooking)
    (h : selected_year yearParam nowYear = some y) :
    (b ∈ filter_by_tab bookings "HISTORY" logged_ids y ↔
      b ∈ bookings ∧
        (b.status = "COMPLETED" ∨ b.status = "CANCELLED" ∨ b.status = "REJECTED") ∧
        (y = 0 ∨ b.startYear = y)) ∧
    (yearParam = none → y = nowYear) := by
  constructor
  · have hred : filter_by_tab bookings "HISTORY" logged_ids y =
        (if y ≠ 0 then
          (bookings.filter fun x =>
            (["COMPLETED", "CANCELLED", "REJECTED"] : List String).contains x.status).filter
              fun x => x.startYear == y
        else
          bookings.filter fun x =>
            (["COMPLETED", "CANCELLED", "REJECTED"] : List String).contains x.status) := rfl
    rw [hred]
    by_cases hy : y = 0
    · simp [hy, List.mem_filter, List.contains, List.elem_iff, and_assoc]
    · simp only [hy, List.mem_filter, List.contains, List.elem_iff, ite_not, if_false,
        Bool.and_eq_true, beq_iff_eq, List.mem_cons, List.not_mem_nil, or_false,
        not_false_eq_true, reduceIte]
      constructor
      · rintro ⟨⟨hb, hst⟩, hyr⟩
        exact ⟨hb, hst, Or.inr hyr⟩
      · rintro ⟨hb, hst, hyr⟩
        exact ⟨⟨hb, hst⟩, hyr.resolve_left id⟩
  · intro hnone
    rw [hnone] at h
    simpa [selected_year] using h.symm

/-- Closed instance of `history_tab_spec` at a requested year of 2020. -/
theorem history_tab_spec_witness :
    selected_year (some "2020") 2026 = some 2020 ∧
    ((sampleBooking ∈ filter_by_tab [sampleBooking] "HISTORY" [] 2020 ↔
      sampleBooking ∈ [sampleBooking] ∧
        (sampleBooking.status = "COMPLETED" ∨ sampleBooking.status = "CANCELLED" ∨
          sampleBooking.status = "REJECTED") ∧
        ((2020 : Int) = 0 ∨ sampleBooking.startYear = 2020)) ∧
      (some "2020" = none → (2020 : Int) = 2026)) :=
  ⟨by decide,
    history_tab_spec [sampleBooking] [] (some "2020") 2026 2020 sampleBooking (by decide)⟩

/-- C10: whenever the `year` query parameter is present but `int(...)` cannot
convert it, the logged-in `/bookings` handler raises before any view is
produced, and it does so for every tab value, not only the HISTORY tab. -/
theorem bookings_page_year_error (u : User) (bookings : List Booking)
    (equipment : List Equipment) (logs : List UsageLog) (tabParam : Option String)
    (s : String) (nowYear : Int) (h : pyInt s = none) :
    bookings_page (some u) bookings equipment logs tabParam (some s) nowYear =
      .error "ValueError" := by
  simp [bookings_page, selected_year, h]

/-- Closed instance of `bookings_page_year_error` at the non-numeric year
parameter `"abc"` and an unrecognized tab. -/
theorem bookings_page_year_error_witness :
    pyInt "abc" = none ∧
    bookings_page (some studentUser) [] [] [] (some "FOO") (some "abc") 2026 =
      .error "ValueError" :=
  ⟨by decide, bookings_page_year_error studentUser [] [] [] (some "FOO") "abc" 2026 (by decide)⟩

/-- C4: the per-tab counts and the history-year list of the assembled view
context are computed from the full enhanced booking set, never from the
tab-filtered slice: any two choices of active tab yield identical counts and
history years. -/
theorem bookings_ctx_counts_tab_invariant (enhanced : List EnhancedBooking)
    (logged_ids : List String) (tab1 tab2 : String) (y nowYear : Int) :
    (bookings_ctx enhanced logged_ids tab1 y nowYear).pendingCount =
        (bookings_ctx enhanced logged_ids tab2 y nowYear).pendingCount ∧
    (bookings_ctx enhanced logged_ids tab1 y nowYear).approvedCount =
        (bookings_ctx enhanced logged_ids tab2 y nowYear).approvedCount ∧
    (bookings_ctx enhanced logged_ids tab1 y nowYear).activeCount =
        (bookings_ctx enhanced logged_ids tab2 y nowYear).activeCount ∧
    (bookings_ctx enhanced logged_ids tab1 y nowYear).waitingLogCount =
        (bookings_ctx enhanced logged_ids tab2 y nowYear).waitingLogCount ∧
    (bookings_ctx enhanced logged_ids tab1 y nowYear).historyCount =
        (bookings_ctx enhanced logged_ids tab2 y nowYear).historyCount ∧
    (bookings_ctx enhanced logged_ids tab1 y nowYear).historyYears =
        (bookings_ctx enhanced logged_ids tab2 y nowYear).historyYears :=
  ⟨rfl, rfl, rfl, rfl, rfl, rfl⟩

/-- C6: when some visible booking has a terminal status, the history-year
list is strictly descending (hence duplicate-free) and its members are
exactly the start-time years of the terminal-status bookings; when no such
booking exists it equals the one-element list `[nowYear]`. -/
theorem history_years_spec (enhanced : List EnhancedBooking) (nowYear : Int) :
    ((∃ b ∈ enhanced,
        (["COMPLETED", "CANCELLED", "REJECTED"] : List String).contains b.status = true) →
      (history_years enhanced nowYear).Sorted (· > ·) ∧
        ∀ y, y ∈ history_years enhanced nowYear ↔
          ∃ b ∈ enhanced,
            (["COMPLETED", "CANCELLED", "REJECTED"] : List String).contains b.status = true ∧
              b.startYear = y) ∧
    ((¬∃ b ∈ enhanced,
        (["COMPLETED", "CANCELLED", "REJECTED"] : List String).contains b.status = true) →
      history_years enhanced nowYear = [nowYear]) := by
  simp only [history_years]
  constructor
  · rintro ⟨b0, hb0, hpb0⟩
    have hysmem : b0.startYear ∈
        ((enhanced.filter fun b =>
            (["COMPLETED", "CANCELLED", "REJECTED"] : List String).contains b.status).map
          fun b => b.startYear).dedup := by
      rw [List.mem_dedup, List.mem_map]
      exact ⟨b0, List.mem_filter.mpr ⟨hb0, hpb0⟩, rfl⟩
    have hmemsort := (List.mem_insertionSort (· ≥ ·)).mpr hysmem
    have hne := List.ne_nil_of_mem hmemsort
    rw [if_neg hne]
    constructor
    · have hs := List.sorted_insertionSort (α := Int) (· ≥ ·)
        ((enhanced.filter fun b =>
            (["COMPLETED", "CANCELLED", "REJECTED"] : List String).contains b.status).map
          fun b => b.startYear).dedup
      have hnodup : (((enhanced.filter fun b =>
            (["COMPLETED", "CANCELLED", "REJECTED"] : List String).contains b.status).map
          fun b => b.startYear).dedup.insertionSort (· ≥ ·)).Nodup :=
        (List.Perm.nodup_iff (List.perm_insertionSort _ _)).mpr (List.nodup_dedup _)
      exact (hs.and hnodup).imp fun h => lt_of_le_of_ne h.1 (Ne.symm h.2)
    · intro y
      rw [List.mem_insertionSort, List.mem_dedup, List.mem_map]
      constructor
      · rintro ⟨b, hbf, rfl⟩
        obtain ⟨hb, hpb⟩ := List.mem_filter.mp hbf
        exact ⟨b, hb, hpb, rfl⟩
      · rintro ⟨b, hb, hpb, rfl⟩
        exact ⟨b, List.mem_filter.mpr ⟨hb, hpb⟩, rfl⟩
  · intro hnone
    have hfil : (enhanced.filter fun b =>
        (["COMPLETED", "CANCELLED", "REJECTED"] : List String).contains b.status) = [] := by
      rw [List.filter_eq_nil_iff]
      intro b hb hpb
      exact hnone ⟨b, hb, hpb⟩
    rw [hfil]
    simp [List.insertionSort]

/-- Closed instance of `visible_bookings_spec` at the seeded student user and
a one-element booking store. -/
theorem visible_bookings_spec_witness :
    ((studentUser.role = "STAFF" ∨ studentUser.role = "ADMIN") →
      visible_bookings studentUser [Booking.mk "b1" "u3" "e1" "PENDING" 2024] =
        [Booking.mk "b1" "u3" "e1" "PENDING" 2024]) ∧
    (¬(studentUser.role = "STAFF" ∨ studentUser.role = "ADMIN") →
      ∀ b, b ∈ visible_bookings studentUser [Booking.mk "b1" "u3" "e1" "PENDING" 2024] ↔
        b ∈ [Booking.mk "b1" "u3" "e1" "PENDING" 2024] ∧ b.userId = studentUser.id) :=
  visible_bookings_spec studentUser [Booking.mk "b1" "u3" "e1" "PENDING" 2024]

/-- Closed instance of `history_years_spec` on a store holding one terminal
booking from 2020, at current year 2026. -/
theorem history_years_spec_witness :
    ((∃ b ∈ [sampleBooking],
        (["COMPLETED", "CANCELLED", "REJECTED"] : List String).contains b.status = true) →
      (history_years [sampleBooking] 2026).Sorted (· > ·) ∧
        ∀ y, y ∈ history_years [sampleBooking] 2026 ↔
          ∃ b ∈ [sampleBooking],
            (["COMPLETED", "CANCELLED", "REJECTED"] : List String).contains b.status = true ∧
              b.startYear = y) ∧
    ((¬∃ b ∈ [sampleBooking],
        (["COMPLETED", "CANCELLED", "REJECTED"] : List String).contains b.status = true) →
      history_years [sampleBooking] 2026 = [2026]) :=
  history_years_spec [sampleBooking] 2026

end Architect
